import Mathlib

/-!
Verification of the lifecycle orchestrator in cmd/manager/main.go.

The program is a single straight-line `main` function: it configures logging
from a `--log-level` flag, runs an ordered list of fallible setup steps
(each failing step logs and calls `os.Exit(1)`), enters a blocking
`mgr.Start` run loop, and on return cancels the watch-manager context,
sleeps five seconds, builds a fresh cleanup client, launches two finalizer
cleanup goroutines, blocks on both of their completion channels, and exits
with status 1 exactly when `mgr.Start` returned an error (or earlier, with
status 1, at a failed setup step or failed cleanup-client construction).

We embed `main` shallowly as a deterministic function from an environment
of collaborator outcomes (which fallible call fails) to the ordered list of
observable events the process performs before it terminates, paired with the
process exit code.  An event appearing in the trace happens strictly before
process termination; the order of the list is the order of execution on the
single orchestrator thread.  The two goroutine launches and the two channel
receives appear as events at the program points where `main` performs them.
-/

namespace Gatekeeper

/-- Tags naming each fallible operation `main` invokes, used to record which
operation an error log entry refers to. -/
inductive ErrTag
  | getConfig
  | managerNew
  | addToScheme
  | opaBackend
  | opaClient
  | controllerAdd
  | webhookAdd
  | auditAdd
  | upgradeAdd
  | mgrStart
  | cleanupClientNew
deriving DecidableEq, Repr

/-- Observable events of one execution of `main`, in program order:
the ten setup steps, the blocking run call, error logging, the watch-context
cancellation, the drain sleep, cleanup-client construction, the two goroutine
launches and the two completion-channel receives. -/
inductive Event
  | stepGetConfig
  | stepManagerNew
  | stepAddToScheme
  | stepOpaBackend
  | stepOpaClient
  | stepWatchNew
  | stepControllerAdd
  | stepWebhookAdd
  | stepAuditAdd
  | stepUpgradeAdd
  | mgrStart
  | logError (tag : ErrTag)
  | wmCancel
  | sleepSeconds (n : Nat)
  | cleanupClientNew
  | goRemoveAllConfigFinalizers
  | goRemoveAllFinalizers
  | recvSyncCleaned
  | recvTemplatesCleaned
deriving DecidableEq, Repr

/-- The environment of one execution: for each fallible collaborator call in
`main`, whether that call returns a non-nil error. -/
structure Env where
  getConfigErr : Bool
  managerNewErr : Bool
  addToSchemeErr : Bool
  opaBackendErr : Bool
  opaClientErr : Bool
  controllerErr : Bool
  webhookErr : Bool
  auditErr : Bool
  upgradeErr : Bool
  mgrStartErr : Bool
  cleanupClientErr : Bool
deriving DecidableEq, Repr

/-- The trace of observable events of `main` under environment `env`, paired
with the process exit code.  Mirrors cmd/manager/main.go line by line:
every `os.Exit(1)` becomes an early return with code 1; a normal return from
`main` is exit code 0; `hadError` records a `mgr.Start` error and turns the
final exit into code 1. -/
def mainRun (env : Env) : List Event × Nat :=
  let t := [Event.stepGetConfig]
  if env.getConfigErr then (t ++ [Event.logError ErrTag.getConfig], 1) else
  let t := t ++ [Event.stepManagerNew]
  if env.managerNewErr then (t ++ [Event.logError ErrTag.managerNew], 1) else
  let t := t ++ [Event.stepAddToScheme]
  if env.addToSchemeErr then (t ++ [Event.logError ErrTag.addToScheme], 1) else
  let t := t ++ [Event.stepOpaBackend]
  if env.opaBackendErr then (t ++ [Event.logError ErrTag.opaBackend], 1) else
  let t := t ++ [Event.stepOpaClient]
  let t := if env.opaClientErr then t ++ [Event.logError ErrTag.opaClient] else t
  let t := t ++ [Event.stepWatchNew, Event.stepControllerAdd]
  if env.controllerErr then (t ++ [Event.logError ErrTag.controllerAdd], 1) else
  let t := t ++ [Event.stepWebhookAdd]
  if env.webhookErr then (t ++ [Event.logError ErrTag.webhookAdd], 1) else
  let t := t ++ [Event.stepAuditAdd]
  if env.auditErr then (t ++ [Event.logError ErrTag.auditAdd], 1) else
  let t := t ++ [Event.stepUpgradeAdd]
  if env.upgradeErr then (t ++ [Event.logError ErrTag.upgradeAdd], 1) else
  let t := t ++ [Event.mgrStart]
  let hadError := env.mgrStartErr
  let t := if env.mgrStartErr then t ++ [Event.logError ErrTag.mgrStart] else t
  let t := t ++ [Event.wmCancel, Event.sleepSeconds 5, Event.cleanupClientNew]
  if env.cleanupClientErr then (t ++ [Event.logError ErrTag.cleanupClientNew], 1) else
  let t := t ++ [Event.goRemoveAllConfigFinalizers, Event.goRemoveAllFinalizers,
                 Event.recvSyncCleaned, Event.recvTemplatesCleaned]
  (t, if hadError then 1 else 0)

/-- The events `main` performs before terminating, in execution order. -/
def mainTrace (env : Env) : List Event := (mainRun env).1

/-- The process exit code of `main` under environment `env`. -/
def exitCode (env : Env) : Nat := (mainRun env).2

/-- The canonical order of the ten setup steps, as `main` performs them. -/
def setupOrder : List Event :=
  [Event.stepGetConfig, Event.stepManagerNew, Event.stepAddToScheme,
   Event.stepOpaBackend, Event.stepOpaClient, Event.stepWatchNew,
   Event.stepControllerAdd, Event.stepWebhookAdd, Event.stepAuditAdd,
   Event.stepUpgradeAdd]

/-- Whether an event is one of the ten setup steps. -/
def isSetupEvent : Event → Bool
  | Event.stepGetConfig => true
  | Event.stepManagerNew => true
  | Event.stepAddToScheme => true
  | Event.stepOpaBackend => true
  | Event.stepOpaClient => true
  | Event.stepWatchNew => true
  | Event.stepControllerAdd => true
  | Event.stepWebhookAdd => true
  | Event.stepAuditAdd => true
  | Event.stepUpgradeAdd => true
  | _ => false

/-- The setup steps an execution actually performed, in order. -/
def setupSteps (env : Env) : List Event := (mainTrace env).filter isSetupEvent

/-- Whether any of the fatal setup calls failed (policy client construction is
excluded: its error is only logged by `main`). -/
def setupFailed (env : Env) : Bool :=
  env.getConfigErr || env.managerNewErr || env.addToSchemeErr ||
  env.opaBackendErr || env.controllerErr || env.webhookErr ||
  env.auditErr || env.upgradeErr

/-- The number of setup steps `main` performs before the first fatal setup
failure stops it (all ten when no fatal setup call fails), following the
source order: a connection-discovery failure stops after step 1, a
manager-construction failure after step 2, a scheme failure after step 3, a
backend failure after step 4, a controller-registration failure after step 7
(policy client and watch-manager construction having run in between), and so
on; a policy-client failure stops nothing. -/
def stepsUntilFirstFatal (env : Env) : Nat :=
  if env.getConfigErr then 1
  else if env.managerNewErr then 2
  else if env.addToSchemeErr then 3
  else if env.opaBackendErr then 4
  else if env.controllerErr then 7
  else if env.webhookErr then 8
  else if env.auditErr then 9
  else 10

/-- The environment in which every collaborator call succeeds. -/
def envAllOk : Env :=
  ⟨false, false, false, false, false, false, false, false, false, false, false⟩

/-- The environment in which only connection discovery fails. -/
def envGetConfigFail : Env :=
  ⟨true, false, false, false, false, false, false, false, false, false, false⟩

/-- The environment in which only policy client construction fails. -/
def envOpaClientFail : Env :=
  ⟨false, false, false, false, true, false, false, false, false, false, false⟩

/-- The environment in which only the blocking run call fails. -/
def envRunFail : Env :=
  ⟨false, false, false, false, false, false, false, false, false, true, false⟩

/-- The environment in which only cleanup-client construction fails. -/
def envCleanupClientFail : Env :=
  ⟨false, false, false, false, false, false, false, false, false, false, true⟩

/-- The environment in which the run call and the cleanup-client construction
both fail. -/
def envRunAndCleanupFail : Env :=
  ⟨false, false, false, false, false, false, false, false, false, true, true⟩

/-- Zap log levels, as used by the logger configuration in main.go. -/
inductive ZapLevel
  | debugLevel
  | infoLevel
  | warnLevel
  | errorLevel
deriving DecidableEq, Repr

/-- The encoder shape of a zap core: structured JSON or human-readable
console. -/
inductive LogEncoder
  | json
  | console
deriving DecidableEq, Repr

/-- The observable shape of the production logger built by
`setLoggerForProduction`: encoder, enabled-level threshold, sampler
parameters, and the level at which stack traces are attached. -/
structure ProdLoggerConfig where
  encoder : LogEncoder
  threshold : ZapLevel
  samplerIntervalSeconds : Nat
  samplerFirst : Nat
  samplerThereafter : Nat
  stacktraceLevel : ZapLevel
deriving DecidableEq, Repr

/-- The configuration installed by `setLoggerForProduction` in main.go: a JSON
encoder, atomic level at Warn, a sampler over 1-second windows keeping the
first 100 and thereafter 100 entries, and stack traces from Error level. -/
def setLoggerForProductionConfig : ProdLoggerConfig :=
  { encoder := LogEncoder.json
    threshold := ZapLevel.warnLevel
    samplerIntervalSeconds := 1
    samplerFirst := 100
    samplerThereafter := 100
    stacktraceLevel := ZapLevel.errorLevel }

/-- The logger installed at startup: either the controller-runtime zap logger
with a development flag (`logf.ZapLogger development`), or the production
configuration from `setLoggerForProduction`. -/
inductive LoggerChoice
  | zapLogger (development : Bool)
  | production (cfg : ProdLoggerConfig)
deriving DecidableEq, Repr

/-- The log-level switch at the top of `main`, embedded from main.go: DEBUG
selects `ZapLogger(true)`, WARNING and ERROR select the production logger,
INFO falls through to the default case, which selects `ZapLogger(false)`. -/
def chooseLogger (logLevel : String) : LoggerChoice :=
  if logLevel = "DEBUG" then LoggerChoice.zapLogger true
  else if logLevel = "WARNING" then LoggerChoice.production setLoggerForProductionConfig
  else if logLevel = "ERROR" then LoggerChoice.production setLoggerForProductionConfig
  else if logLevel = "INFO" then LoggerChoice.zapLogger false
  else LoggerChoice.zapLogger false

/-- The log-level mapping as the spec words it (section 4.1): DEBUG gives the
verbose human-readable sink; WARNING and ERROR give a structured sink
thresholded at WARNING, with at most 100 identical error records per 1-second
window kept verbatim then 100 sampled, and stack traces attached from ERROR;
INFO and every unrecognized value give the standard human-readable sink.
Written from the spec for comparison with `chooseLogger`. -/
def specLogChoice (level : String) : LoggerChoice :=
  if level = "DEBUG" then LoggerChoice.zapLogger true
  else if level = "WARNING" ∨ level = "ERROR" then
    LoggerChoice.production
      { encoder := LogEncoder.json
        threshold := ZapLevel.warnLevel
        samplerIntervalSeconds := 1
        samplerFirst := 100
        samplerThereafter := 100
        stacktraceLevel := ZapLevel.errorLevel }
  else LoggerChoice.zapLogger false

set_option maxHeartbeats 2000000

/-- C1: if connection discovery, manager construction, scheme registration, or
any of the controller, webhook, audit or upgrade registrations fails, the
process exits with status 1, the run loop is never entered, the setup steps
actually performed are exactly the canonical order truncated at the first
fatally failing step (no later setup step runs), and neither finalizer
cleanup worker is launched. -/
theorem C1_fatal_setup_failure_halts (env : Env)
    (hfail : env.getConfigErr = true ∨ env.managerNewErr = true ∨
      env.addToSchemeErr = true ∨ env.controllerErr = true ∨
      env.webhookErr = true ∨ env.auditErr = true ∨ env.upgradeErr = true) :
    exitCode env = 1 ∧
    (mainTrace env).count Event.mgrStart = 0 ∧
    (mainTrace env).count Event.goRemoveAllConfigFinalizers = 0 ∧
    (mainTrace env).count Event.goRemoveAllFinalizers = 0 ∧
    setupSteps env = setupOrder.take (stepsUntilFirstFatal env) := by
  obtain ⟨a, b, c, d, e, f, g, h, i, j, k⟩ := env
  revert hfail
  revert a b c d e f g h i j k
  decide

/-- C1 witness: the theorem applied at the environment where only connection
discovery fails. -/
theorem C1_fatal_setup_failure_halts_witness :
    envGetConfigFail.getConfigErr = true ∧ exitCode envGetConfigFail = 1 :=
  ⟨rfl, (C1_fatal_setup_failure_halts envGetConfigFail (Or.inl rfl)).1⟩

/-- C2: every execution that reaches the cleanup phase (launches the cleanup
workers) observes both completion signals before the process exits: both
channel receives occur, each strictly after the corresponding worker launch,
and the two receives are the final two events before the exit decision. -/
theorem C2_exit_waits_for_both_signals (env : Env)
    (hreach : Event.goRemoveAllConfigFinalizers ∈ mainTrace env) :
    Event.recvSyncCleaned ∈ mainTrace env ∧
    Event.recvTemplatesCleaned ∈ mainTrace env ∧
    (mainTrace env).indexOf Event.goRemoveAllConfigFinalizers <
      (mainTrace env).indexOf Event.recvSyncCleaned ∧
    (mainTrace env).indexOf Event.goRemoveAllFinalizers <
      (mainTrace env).indexOf Event.recvTemplatesCleaned ∧
    (mainTrace env).drop ((mainTrace env).length - 2) =
      [Event.recvSyncCleaned, Event.recvTemplatesCleaned] := by
  obtain ⟨a, b, c, d, e, f, g, h, i, j, k⟩ := env
  revert hreach
  revert a b c d e f g h i j k
  decide

/-- C2 witness: the theorem applied at the all-success environment. -/
theorem C2_exit_waits_for_both_signals_witness :
    Event.goRemoveAllConfigFinalizers ∈ mainTrace envAllOk ∧
    Event.recvSyncCleaned ∈ mainTrace envAllOk :=
  ⟨by decide, (C2_exit_waits_for_both_signals envAllOk (by decide)).1⟩

/-- C3 counterexample: in the execution where every setup step and the run
call succeed but the post-run cleanup-client construction fails, there is no
setup failure and no run failure, yet the exit code is 1 and not 0 — refuting
the claim that the process exits 0 exactly when there is no setup failure and
no run failure. -/
theorem C3_counterexample :
    setupFailed envCleanupClientFail = false ∧
    envCleanupClientFail.opaClientErr = false ∧
    envCleanupClientFail.mgrStartErr = false ∧
    exitCode envCleanupClientFail = 1 := by decide

/-- C3 amended: the process exits 0 exactly when no fatal setup step fails,
the run call succeeds, and the post-run cleanup-client construction succeeds;
every other execution exits 1, so the exit code is always 0 or 1. -/
theorem C3_exit_code_characterization (env : Env) :
    (exitCode env = 0 ↔
      (setupFailed env = false ∧ env.mgrStartErr = false ∧
        env.cleanupClientErr = false)) ∧
    (exitCode env = 0 ∨ exitCode env = 1) := by
  obtain ⟨a, b, c, d, e, f, g, h, i, j, k⟩ := env
  revert a b c d e f g h i j k
  decide

/-- C4: the watch-lifetime cancellation never happens before the run call, and
happens exactly once after the run call returns, whether or not the run call
returned an error; in executions that never reach the run call it is not
invoked at all. -/
theorem C4_watch_cancel_once_after_run (env : Env) :
    (mainTrace env).count Event.wmCancel =
      (if Event.mgrStart ∈ mainTrace env then 1 else 0) ∧
    ((mainTrace env).indexOf Event.mgrStart <
        (mainTrace env).indexOf Event.wmCancel ∨
      (mainTrace env).count Event.wmCancel = 0) := by
  obtain ⟨a, b, c, d, e, f, g, h, i, j, k⟩ := env
  revert a b c d e f g h i j k
  decide

/-- C5 counterexample: when the run call fails and the post-run cleanup-client
construction also fails, the run loop was entered and returned an error, yet
neither finalizer cleanup worker is launched before the exit with status 1 —
refuting the claim that after a run error both cleanup workers always execute
to completion before the process exits. -/
theorem C5_counterexample :
    envRunAndCleanupFail.mgrStartErr = true ∧
    Event.mgrStart ∈ mainTrace envRunAndCleanupFail ∧
    exitCode envRunAndCleanupFail = 1 ∧
    (mainTrace envRunAndCleanupFail).count Event.goRemoveAllConfigFinalizers = 0 ∧
    (mainTrace envRunAndCleanupFail).count Event.goRemoveAllFinalizers = 0 := by
  decide

/-- C5 amended: if the run call returns an error, the execution reached the
run call, and the cleanup-client construction succeeds, the error is logged
and recorded but does not short-circuit shutdown: watch cancellation, the
5-second drain sleep, both worker launches and both completion-signal receives
all occur, and the process then exits with status 1. -/
theorem C5_run_error_still_cleans_up (env : Env)
    (hrun : env.mgrStartErr = true)
    (hcli : env.cleanupClientErr = false)
    (hreach : Event.mgrStart ∈ mainTrace env) :
    Event.logError ErrTag.mgrStart ∈ mainTrace env ∧
    Event.wmCancel ∈ mainTrace env ∧
    Event.sleepSeconds 5 ∈ mainTrace env ∧
    Event.goRemoveAllConfigFinalizers ∈ mainTrace env ∧
    Event.goRemoveAllFinalizers ∈ mainTrace env ∧
    Event.recvSyncCleaned ∈ mainTrace env ∧
    Event.recvTemplatesCleaned ∈ mainTrace env ∧
    exitCode env = 1 := by
  obtain ⟨a, b, c, d, e, f, g, h, i, j, k⟩ := env
  revert hrun hcli hreach
  revert a b c d e f g h i j k
  decide

/-- C5 witness: the amended theorem applied at the environment where only the
run call fails. -/
theorem C5_run_error_still_cleans_up_witness :
    envRunFail.mgrStartErr = true ∧ exitCode envRunFail = 1 :=
  ⟨rfl, (C5_run_error_still_cleans_up envRunFail rfl rfl (by decide)).2.2.2.2.2.2.2⟩

/-- C6: in every execution that launches the cleanup workers, both launches
happen strictly after the 5-second drain sleep, which itself happens strictly
after the watch cancellation, which happens strictly after the run call
returned. -/
theorem C6_workers_start_after_drain (env : Env)
    (hreach : Event.goRemoveAllConfigFinalizers ∈ mainTrace env) :
    Event.sleepSeconds 5 ∈ mainTrace env ∧
    (mainTrace env).indexOf Event.mgrStart <
      (mainTrace env).indexOf Event.wmCancel ∧
    (mainTrace env).indexOf Event.wmCancel <
      (mainTrace env).indexOf (Event.sleepSeconds 5) ∧
    (mainTrace env).indexOf (Event.sleepSeconds 5) <
      (mainTrace env).indexOf Event.goRemoveAllConfigFinalizers ∧
    (mainTrace env).indexOf (Event.sleepSeconds 5) <
      (mainTrace env).indexOf Event.goRemoveAllFinalizers := by
  obtain ⟨a, b, c, d, e, f, g, h, i, j, k⟩ := env
  revert hreach
  revert a b c d e f g h i j k
  decide

/-- C6 witness: the theorem applied at the all-success environment. -/
theorem C6_workers_start_after_drain_witness :
    Event.goRemoveAllConfigFinalizers ∈ mainTrace envAllOk ∧
    Event.sleepSeconds 5 ∈ mainTrace envAllOk :=
  ⟨by decide, (C6_workers_start_after_drain envAllOk (by decide)).1⟩

/-- C7: the log-level mapping is a total function of the input string that
agrees everywhere with the mapping the spec describes: DEBUG selects the
verbose human-readable logger; WARNING and ERROR select the structured
production configuration (JSON encoder, threshold WARNING, 100-then-100
per-second sampling, stack traces from ERROR); INFO and every unrecognized
input select the standard human-readable logger. -/
theorem C7_log_level_mapping (s : String) : chooseLogger s = specLogChoice s := by
  unfold chooseLogger specLogChoice
  split_ifs <;> first | rfl | simp_all

/-- C8: a policy-client construction failure is only logged and does not halt
startup: in any execution where no fatal setup step fails but policy client
construction fails, the error is logged and all subsequent setup steps —
watch-manager construction and the controller, webhook, audit and upgrade
registrations — still execute, and the run loop is still entered. -/
theorem C8_client_failure_nonfatal (env : Env)
    (hsetup : setupFailed env = false)
    (hcli : env.opaClientErr = true) :
    Event.logError ErrTag.opaClient ∈ mainTrace env ∧
    Event.stepWatchNew ∈ mainTrace env ∧
    Event.stepControllerAdd ∈ mainTrace env ∧
    Event.stepWebhookAdd ∈ mainTrace env ∧
    Event.stepAuditAdd ∈ mainTrace env ∧
    Event.stepUpgradeAdd ∈ mainTrace env ∧
    Event.mgrStart ∈ mainTrace env := by
  obtain ⟨a, b, c, d, e, f, g, h, i, j, k⟩ := env
  revert hsetup hcli
  revert a b c d e f g h i j k
  decide

/-- C8 witness: the theorem applied at the environment where only policy
client construction fails. -/
theorem C8_client_failure_nonfatal_witness :
    setupFailed envOpaClientFail = false ∧
    Event.mgrStart ∈ mainTrace envOpaClientFail :=
  ⟨rfl, (C8_client_failure_nonfatal envOpaClientFail rfl rfl).2.2.2.2.2.2⟩

/-- C9: the setup steps always execute in the specified order: in every
execution the performed setup steps form an initial segment of the canonical
order — connection discovery, manager construction, scheme registration,
policy backend construction, policy client construction, watch-manager
construction, controller registration, webhook registration, audit
registration, upgrade registration — and in the all-success execution all ten
are performed in exactly that order, so each handle-producing step precedes
every later step that consumes its handle. -/
theorem C9_setup_order :
    (∀ env : Env, setupSteps env = setupOrder.take (setupSteps env).length) ∧
    setupSteps envAllOk = setupOrder := by
  constructor
  · intro env
    obtain ⟨a, b, c, d, e, f, g, h, i, j, k⟩ := env
    revert a b c d e f g h i j k
    decide
  · decide

/-- C10: if the post-run cleanup-client construction fails, the process exits
with status 1 immediately: the error is logged and neither finalizer cleanup
worker is launched, no completion signal is received — for any outcome of the
earlier steps, in particular even when every setup step and the run call
succeeded. -/
theorem C10_cleanup_client_failure (env : Env)
    (hcli : env.cleanupClientErr = true)
    (hreach : Event.cleanupClientNew ∈ mainTrace env) :
    exitCode env = 1 ∧
    Event.logError ErrTag.cleanupClientNew ∈ mainTrace env ∧
    (mainTrace env).count Event.goRemoveAllConfigFinalizers = 0 ∧
    (mainTrace env).count Event.goRemoveAllFinalizers = 0 ∧
    (mainTrace env).count Event.recvSyncCleaned = 0 ∧
    (mainTrace env).count Event.recvTemplatesCleaned = 0 := by
  obtain ⟨a, b, c, d, e, f, g, h, i, j, k⟩ := env
  revert hcli hreach
  revert a b c d e f g h i j k
  decide

/-- C10 witness: the theorem applied at the environment where only the
cleanup-client construction fails. -/
theorem C10_cleanup_client_failure_witness :
    envCleanupClientFail.cleanupClientErr = true ∧
    exitCode envCleanupClientFail = 1 :=
  ⟨rfl, (C10_cleanup_client_failure envCleanupClientFail rfl (by decide)).1⟩

end Gatekeeper
